import Mathlib

/-!
Shallow embedding of the generation-orchestration core of the Ameena-AI
study page (src/pages/StudyPage.tsx): the data model (StudyMaterial and
its generated artifacts) and the six feature handlers
(handleGenerate, handleSendMessage, handleGenerateFullPresentation,
handleGenerateBlockDiagram, handleGenerateVideo), each modelled as a
function from its captured state and the outcomes of its external calls
(AI gateway, content-store updates) to the resulting store state,
error slots, loading-flag assignment trace, and event trace.
-/

/-- Sender of a chat message (`sender: 'user' | 'ai'` in types). -/
inductive Sender where
  | user
  | ai
deriving DecidableEq, Repr

/-- A web-grounding citation attached to an AI chat reply. -/
structure GroundingSource where
  uri : String
  title : Option String := none
deriving DecidableEq, Repr

/-- One chat message as stored in a material's chat history. -/
structure ChatMessage where
  id : String
  sender : Sender
  text : String
  timestamp : String
  groundingSources : Option (List GroundingSource) := none
deriving DecidableEq, Repr

/-- One presentation slide: title, bullet points, image prompt, optional image URL. -/
structure SlideContent where
  title : String
  content : List String
  imagePrompt : String
  imageUrl : Option String := none
deriving DecidableEq, Repr

/-- The generated presentation: a title plus ordered slides. -/
structure PresentationContent where
  title : String
  slides : List SlideContent
deriving DecidableEq, Repr

/-- One narrated video scene: script, image prompt, optional image URL. -/
structure VideoScene where
  script : String
  imagePrompt : String
  imageUrl : Option String := none
deriving DecidableEq, Repr

/-- The note-length enum (`NoteLength` in types): SHORT, MEDIUM, DETAILED. -/
inductive NoteLength where
  | short
  | medium
  | detailed
deriving DecidableEq, Repr

/-- The notes mapping from note length to optionally-generated text
(`notes?: { [key in NoteLength]?: string }`). -/
structure Notes where
  short : Option String := none
  medium : Option String := none
  detailed : Option String := none
deriving DecidableEq, Repr

/-- Read the notes entry for a given length (`material.notes?.[length]`). -/
def Notes.get (n : Notes) : NoteLength → Option String
  | .short => n.short
  | .medium => n.medium
  | .detailed => n.detailed

/-- The spread-merge `{ ...material.notes, [selectedNoteLength]: result }`:
override exactly one length's entry, keep the others. -/
def Notes.set (n : Notes) : NoteLength → String → Notes
  | .short, v => { n with short := some v }
  | .medium, v => { n with medium := some v }
  | .detailed, v => { n with detailed := some v }

/-- One study-material record of the content store. -/
structure StudyMaterial where
  id : String
  title : String
  subject : String
  topic : String
  difficulty : String
  type : String
  extractedText : Option String := none
  aiSummary : Option String := none
  aiExplanation : Option String := none
  notes : Notes := {}
  presentationContent : Option PresentationContent := none
  blockDiagramMermaid : Option String := none
  videoScenes : Option (List VideoScene) := none
  chatHistory : Option (List ChatMessage) := none
deriving DecidableEq, Repr

/-- JavaScript truthiness of an optional string field: falsy iff the field
is absent or the empty string (`!material.aiExplanation`). -/
def optStringTruthy : Option String → Bool
  | none => false
  | some s => !(s == "")

/-- JavaScript `a || b` on strings: `b` when `a` is the empty string. -/
def jsOr (a b : String) : String :=
  if a == "" then b else a

/-- Outcome of one awaited AI-gateway call: resolves with a value or
rejects (throws) with an error message (`err.message`). -/
inductive GatewayResult (α : Type) where
  | success (value : α)
  | failure (message : String)
deriving DecidableEq, Repr

/-- The feature key of `handleGenerate` (`'summary' | 'explanation' | 'notes'`). -/
inductive GenType where
  | summary
  | explanation
  | notes
deriving DecidableEq, Repr

/-- The template string used in the catch clause of `handleGenerate`. -/
def genTypeName : GenType → String
  | .summary => "summary"
  | .explanation => "explanation"
  | .notes => "notes"

/-- Result of one feature-handler invocation: final store record, the
feature's error slot, the ordered assignments made to the feature's
loading flag, whether any gateway function was invoked, and whether an
exception escaped the handler. -/
structure GenRun where
  store : StudyMaterial
  errorSlot : Option String
  loadingTrace : List Bool
  gatewayCalled : Bool
  uncaught : Bool
deriving DecidableEq, Repr

/-- `handleGenerate` (StudyPage.tsx lines 214-229): guard on
`!material?.id`, set loading true and error null, await the generator,
on success merge into the addressed field (notes merge one length via
spread), on failure set the feature error, finally clear loading.
`storeThrow = some msg` models `updateStudyMaterial` throwing. -/
def handleGenerate (m : StudyMaterial) (ty : GenType)
    (selectedNoteLength : NoteLength) (gen : GatewayResult String)
    (storeThrow : Option String) (error0 : Option String) : GenRun :=
  if m.id == "" then
    { store := m, errorSlot := error0, loadingTrace := [],
      gatewayCalled := false, uncaught := false }
  else
    match gen with
    | .failure _ =>
        { store := m
          errorSlot := some ("Failed to generate " ++ genTypeName ty ++ ". Please try again.")
          loadingTrace := [true, false], gatewayCalled := true, uncaught := false }
    | .success result =>
        match storeThrow with
        | some _ =>
            { store := m
              errorSlot := some ("Failed to generate " ++ genTypeName ty ++ ". Please try again.")
              loadingTrace := [true, false], gatewayCalled := true, uncaught := false }
        | none =>
            let updated :=
              match ty with
              | .summary => { m with aiSummary := some result }
              | .explanation => { m with aiExplanation := some result }
              | .notes => { m with notes := m.notes.set selectedNoteLength result }
            { store := updated, errorSlot := none, loadingTrace := [true, false],
              gatewayCalled := true, uncaught := false }

/-- JavaScript `String.prototype.trim`: strip leading and trailing
whitespace characters. -/
def jsTrim (s : String) : String :=
  ⟨((s.data.dropWhile Char.isWhitespace).reverse.dropWhile Char.isWhitespace).reverse⟩

/-- The fixed assistant-voiced error text appended on a chat failure. -/
def chatErrorText : String :=
  "Sorry, I encountered an error. Please check your connection or API key and try again."

/-- The user message built by `handleSendMessage`
(`{ id: msg_Date.now(), sender: 'user', text: textToSend, timestamp }`). -/
def mkUserMessage (now : Nat) (text : String) (ts : String) : ChatMessage :=
  { id := "msg_" ++ toString now, sender := .user, text := text, timestamp := ts }

/-- The AI reply message built on gateway success
(`{ id: msg_Date.now()+1, sender: 'ai', text, timestamp, groundingSources }`). -/
def mkAiMessage (now : Nat) (text : String) (ts : String)
    (gs : Option (List GroundingSource)) : ChatMessage :=
  { id := "msg_" ++ toString (now + 1), sender := .ai, text := text,
    timestamp := ts, groundingSources := gs }

/-- The error message appended in the catch clause of `handleSendMessage`
(`{ id: err_Date.now(), sender: 'ai', text: "Sorry...", timestamp }`). -/
def mkErrorMessage (now : Nat) (ts : String) : ChatMessage :=
  { id := "err_" ++ toString now, sender := .ai, text := chatErrorText, timestamp := ts }

/-- Outcome of the awaited `sendMessageToChat` gateway call. -/
inductive ChatOutcome where
  | success (text : String) (groundingSources : Option (List GroundingSource))
  | failure (message : String)
deriving DecidableEq, Repr

/-- Result of one `handleSendMessage` invocation. `historyAtCompletion` is
the chat history a fresh store read (`getStudyMaterialById`) returns at the
moment the gateway call completes (`none` when that moment is never
reached); `storeWrites` counts `updateStudyMaterial` invocations. -/
structure ChatRun where
  store : Option StudyMaterial
  historyAtCompletion : Option (List ChatMessage)
  errorChat : Option String
  chatInput : String
  awaitingTrace : List Bool
  gatewayCalled : Bool
  storeWrites : Nat
  uncaught : Bool
deriving DecidableEq, Repr

/-- `handleSendMessage` (StudyPage.tsx lines 234-258): trim the text and
guard on `!textToSend || !material?.id`; optimistically append the user
message via a whole-field store write of the closure-captured history plus
the user message; clear the input, set the awaiting flag, clear the chat
error; await the gateway. On success, write the closure-captured history
plus user message plus AI message (NOT a fresh store read). On failure,
re-read the material from the store and write its current history plus one
error message. Finally clear the awaiting flag. `interleaved` models
messages appended to the store by other writers between the optimistic
write and the gateway completion; `storeThrow` models `updateStudyMaterial`
throwing (the optimistic write is outside the try block, so the exception
escapes before the awaiting flag is ever set). -/
def handleSendMessage (textOverride : Option String) (chatInput : String)
    (material : Option StudyMaterial) (interleaved : List ChatMessage)
    (outcome : ChatOutcome) (storeThrow : Option String)
    (now : Nat) (ts : String) (errorChat0 : Option String) : ChatRun :=
  let textToSend := jsTrim (textOverride.getD chatInput)
  match material with
  | none =>
      { store := material, historyAtCompletion := none, errorChat := errorChat0,
        chatInput := chatInput, awaitingTrace := [], gatewayCalled := false,
        storeWrites := 0, uncaught := false }
  | some m =>
      if textToSend == "" || m.id == "" then
        { store := material, historyAtCompletion := none, errorChat := errorChat0,
          chatInput := chatInput, awaitingTrace := [], gatewayCalled := false,
          storeWrites := 0, uncaught := false }
      else
        let userMessage := mkUserMessage now textToSend ts
        match storeThrow with
        | some _ =>
            { store := some m, historyAtCompletion := none, errorChat := errorChat0,
              chatInput := chatInput, awaitingTrace := [], gatewayCalled := false,
              storeWrites := 1, uncaught := true }
        | none =>
            let store1 := { m with chatHistory := some ((m.chatHistory.getD []) ++ [userMessage]) }
            let storeNow := { store1 with chatHistory := some ((store1.chatHistory.getD []) ++ interleaved) }
            match outcome with
            | .success aiText gs =>
                let aiMessage := mkAiMessage now aiText ts gs
                { store := some { storeNow with
                    chatHistory := some ((m.chatHistory.getD []) ++ [userMessage, aiMessage]) }
                  historyAtCompletion := some (storeNow.chatHistory.getD [])
                  errorChat := none, chatInput := "", awaitingTrace := [true, false],
                  gatewayCalled := true, storeWrites := 2, uncaught := false }
            | .failure _ =>
                let errorMessage := mkErrorMessage now ts
                { store := some { storeNow with
                    chatHistory := some ((storeNow.chatHistory.getD []) ++ [errorMessage]) }
                  historyAtCompletion := some (storeNow.chatHistory.getD [])
                  errorChat := none, chatInput := "", awaitingTrace := [true, false],
                  gatewayCalled := true, storeWrites := 2, uncaught := false }

/-- Final chat history of the (optional) store record after a chat run. -/
def ChatRun.finalHistory (r : ChatRun) : Option (List ChatMessage) :=
  r.store.bind (fun m => m.chatHistory)

/-- Outcome of the awaited `generatePresentationImages` gateway call:
resolves with a content object, resolves with a falsy value, or rejects. -/
inductive ImagePhaseOutcome where
  | returns (content : PresentationContent)
  | nullResult
  | throwsWith (message : String)
deriving DecidableEq, Repr

/-- Events of one `handleGenerateFullPresentation` invocation, in order:
the two gateway calls and the store writes. -/
inductive PresentationEvent where
  | contentCall
  | contentWrite
  | imagesCall
  | imagesWrite
  | rollbackWrite
deriving DecidableEq, Repr

/-- Result of one `handleGenerateFullPresentation` invocation.
`storeAtImagesCall` is the store record at the moment phase 2
(`generatePresentationImages`) is invoked, `none` when phase 2 never starts. -/
structure PresentationRun where
  store : StudyMaterial
  presentationError : Option String
  loadingTrace : List Bool
  events : List PresentationEvent
  storeAtImagesCall : Option StudyMaterial
  uncaught : Bool
deriving DecidableEq, Repr

/-- `handleGenerateFullPresentation` (StudyPage.tsx lines 260-286): guard on
`!material?.id || !material.aiExplanation` with a precondition error; set
the generating flag and clear the error; phase 1 awaits
`generatePresentationContent`, throws on a falsy result, and writes the
image-less content to the store; phase 2 awaits
`generatePresentationImages`; a truthy result is written to the store and a
warning error is set when any slide's image URL is falsy; a falsy result
throws. The catch clause sets `presentationError` to
`err.message || "An unknown error occurred."` and then writes
`presentationContent: undefined` (rollback to absent). Finally the flag is
cleared. `storeThrow = some msg` models `updateStudyMaterial` throwing:
the phase-1 write then lands in the catch clause whose own rollback write
throws again and escapes, after the finally clause runs. -/
def handleGenerateFullPresentation (m : StudyMaterial)
    (phase1 : GatewayResult (Option PresentationContent))
    (phase2 : ImagePhaseOutcome) (storeThrow : Option String) : PresentationRun :=
  if m.id == "" || !(optStringTruthy m.aiExplanation) then
    { store := m
      presentationError := some "An explanation must be generated first to create a presentation."
      loadingTrace := [], events := [], storeAtImagesCall := none, uncaught := false }
  else
    match phase1 with
    | .failure msg =>
        match storeThrow with
        | some _ =>
            { store := m, presentationError := some (jsOr msg "An unknown error occurred.")
              loadingTrace := [true, false], events := [.contentCall]
              storeAtImagesCall := none, uncaught := true }
        | none =>
            { store := { m with presentationContent := none }
              presentationError := some (jsOr msg "An unknown error occurred.")
              loadingTrace := [true, false], events := [.contentCall, .rollbackWrite]
              storeAtImagesCall := none, uncaught := false }
    | .success none =>
        match storeThrow with
        | some _ =>
            { store := m
              presentationError := some "The AI failed to generate presentation content."
              loadingTrace := [true, false], events := [.contentCall]
              storeAtImagesCall := none, uncaught := true }
        | none =>
            { store := { m with presentationContent := none }
              presentationError := some "The AI failed to generate presentation content."
              loadingTrace := [true, false], events := [.contentCall, .rollbackWrite]
              storeAtImagesCall := none, uncaught := false }
    | .success (some content) =>
        match storeThrow with
        | some msg =>
            { store := m, presentationError := some (jsOr msg "An unknown error occurred.")
              loadingTrace := [true, false], events := [.contentCall]
              storeAtImagesCall := none, uncaught := true }
        | none =>
            let store1 := { m with presentationContent := some content }
            match phase2 with
            | .returns contentWithImages =>
                let store2 := { store1 with presentationContent := some contentWithImages }
                { store := store2
                  presentationError :=
                    if contentWithImages.slides.any (fun s => !(optStringTruthy s.imageUrl)) then
                      some "Some slide visuals could not be generated."
                    else none
                  loadingTrace := [true, false]
                  events := [.contentCall, .contentWrite, .imagesCall, .imagesWrite]
                  storeAtImagesCall := some store1, uncaught := false }
            | .nullResult =>
                { store := { store1 with presentationContent := none }
                  presentationError := some "Failed to generate presentation images."
                  loadingTrace := [true, false]
                  events := [.contentCall, .contentWrite, .imagesCall, .rollbackWrite]
                  storeAtImagesCall := some store1, uncaught := false }
            | .throwsWith msg =>
                { store := { store1 with presentationContent := none }
                  presentationError := some (jsOr msg "An unknown error occurred.")
                  loadingTrace := [true, false]
                  events := [.contentCall, .contentWrite, .imagesCall, .rollbackWrite]
                  storeAtImagesCall := some store1, uncaught := false }

/-- Attach per-slide image results to a slide list: slide `i` gets
`results[i]` as its image URL (absent when that slide's image failed). -/
def attachImages : List SlideContent → List (Option String) → List SlideContent
  | [], _ => []
  | s :: ss, [] => { s with imageUrl := none } :: attachImages ss []
  | s :: ss, r :: rs => { s with imageUrl := r } :: attachImages ss rs

/-- Modelled from the spec: `generatePresentationImages` lives in
`services/geminiService.ts`, which is not under src/. Per the spec (§4.1)
it "calls an image-generation endpoint per slide ...; on a per-slide image
failure, falls back to a secondary public image-generation endpoint keyed
by the same prompt; if both fail, the slide's image URL remains absent
(not a fatal error for the whole presentation)" — i.e. it resolves with
the same content structure, each slide's image URL filled in when that
slide's generation produced a URL and absent otherwise. The per-slide
outcomes are abstracted as an optional URL per slide index. -/
def generatePresentationImages (content : PresentationContent)
    (results : List (Option String)) : PresentationContent :=
  { content with slides := attachImages content.slides results }

/-- `handleGenerateBlockDiagram` (StudyPage.tsx lines 310-323): guard on
`!material?.aiExplanation` with a precondition error; set the generating
flag and clear the error; await `generateBlockDiagram` and write
`mermaidCode || 'error'` to the store; the catch clause sets
`diagramError` to `err.message || 'Failed to generate diagram.'` and
writes `'error'` to the store; finally the flag is cleared.
`storeThrow = some msg` models `updateStudyMaterial` throwing: the catch
clause then sets the error from the store's exception, and its own
`'error'` write throws again and escapes after the finally clause. -/
def handleGenerateBlockDiagram (m : StudyMaterial)
    (gateway : GatewayResult String) (storeThrow : Option String) : GenRun :=
  if !(optStringTruthy m.aiExplanation) then
    { store := m, errorSlot := some "Please generate an explanation first."
      loadingTrace := [], gatewayCalled := false, uncaught := false }
  else
    match gateway with
    | .success mermaidCode =>
        match storeThrow with
        | some msg =>
            { store := m, errorSlot := some (jsOr msg "Failed to generate diagram.")
              loadingTrace := [true, false], gatewayCalled := true, uncaught := true }
        | none =>
            { store := { m with blockDiagramMermaid := some (jsOr mermaidCode "error") }
              errorSlot := none, loadingTrace := [true, false]
              gatewayCalled := true, uncaught := false }
    | .failure msg =>
        match storeThrow with
        | some _ =>
            { store := m, errorSlot := some (jsOr msg "Failed to generate diagram.")
              loadingTrace := [true, false], gatewayCalled := true, uncaught := true }
        | none =>
            { store := { m with blockDiagramMermaid := some "error" }
              errorSlot := some (jsOr msg "Failed to generate diagram.")
              loadingTrace := [true, false], gatewayCalled := true, uncaught := false }

/-- `handleGenerateVideo` (StudyPage.tsx lines 325-340): guard on
`!material?.aiExplanation` with a precondition error; set the video loading
flag and clear the video error; await `generateVideoAssets` and write
`scenes || []` to `videoScenes`; the catch clause sets the video error to
`err.message || "An unknown error occurred."` and performs no store write;
finally the flag is cleared. The gateway resolves with a scene list or a
falsy value (modelled as an optional list), or rejects. -/
def handleGenerateVideo (m : StudyMaterial)
    (gateway : GatewayResult (Option (List VideoScene)))
    (storeThrow : Option String) : GenRun :=
  if !(optStringTruthy m.aiExplanation) then
    { store := m, errorSlot := some "Please generate an explanation first."
      loadingTrace := [], gatewayCalled := false, uncaught := false }
  else
    match gateway with
    | .success scenes =>
        match storeThrow with
        | some msg =>
            { store := m, errorSlot := some (jsOr msg "An unknown error occurred.")
              loadingTrace := [true, false], gatewayCalled := true, uncaught := false }
        | none =>
            { store := { m with videoScenes := some (scenes.getD []) }
              errorSlot := none, loadingTrace := [true, false]
              gatewayCalled := true, uncaught := false }
    | .failure msg =>
        { store := m, errorSlot := some (jsOr msg "An unknown error occurred.")
          loadingTrace := [true, false], gatewayCalled := true, uncaught := false }

/-- Checks that every `imagesCall` event is preceded by a `contentWrite`
event: phase 2 starts only after the phase-1 store write. -/
def eventsOrdered (seenWrite : Bool) : List PresentationEvent → Bool
  | [] => true
  | .imagesCall :: rest => seenWrite && eventsOrdered seenWrite rest
  | .contentWrite :: rest => eventsOrdered true rest
  | .contentCall :: rest => eventsOrdered seenWrite rest
  | .imagesWrite :: rest => eventsOrdered seenWrite rest
  | .rollbackWrite :: rest => eventsOrdered seenWrite rest

/-- Concrete prior user chat message for test runs. -/
def msgA : ChatMessage := { id := "m1", sender := .user, text := "A", timestamp := "t1" }

/-- Concrete prior AI chat message for test runs. -/
def msgB : ChatMessage := { id := "m2", sender := .ai, text := "B", timestamp := "t2" }

/-- Concrete chat message appended by another writer while a chat request
is in flight. -/
def msgE : ChatMessage := { id := "m3", sender := .ai, text := "E", timestamp := "t3" }

/-- Concrete study material with an explanation, one pre-generated note
length, and chat history [msgA, msgB]. -/
def matA : StudyMaterial :=
  { id := "mat1", title := "T", subject := "S", topic := "Top", difficulty := "Easy",
    type := "TEXT", extractedText := some "text", aiExplanation := some "expl",
    notes := { short := some "short notes" }, chatHistory := some [msgA, msgB] }

/-- Concrete study material without an explanation. -/
def matNoExpl : StudyMaterial := { matA with aiExplanation := none }

/-- Concrete two-slide presentation content, no images yet (phase-1 shape). -/
def pcA : PresentationContent :=
  { title := "deck"
    slides := [ { title := "s1", content := ["p"], imagePrompt := "ip1" },
                { title := "s2", content := ["q"], imagePrompt := "ip2" } ] }

/-- Chat run where message "hi" is sent while history is [msgA, msgB] and
msgE is appended to the store by another writer before the gateway
resolves successfully. -/
def chatRunC1 : ChatRun :=
  handleSendMessage none "hi" (some matA) [msgE] (.success "reply" none) none 10 "t4" none

/-- Presentation run where phase 1 yields `pcA` and the image phase
completes with every slide's image generation failing. -/
def runC2 : PresentationRun :=
  handleGenerateFullPresentation matA (.success (some pcA))
    (.returns (generatePresentationImages pcA [none, none])) none

theorem jsOr_ne_empty (a b : String) (hb : b ≠ "") : jsOr a b ≠ "" := by
  by_cases h : a = ""
  · simp [jsOr, h, hb]
  · simp [jsOr, h]

theorem Notes.get_set_self (n : Notes) (L : NoteLength) (v : String) :
    (n.set L v).get L = some v := by
  cases L <;> rfl

theorem Notes.get_set_other (n : Notes) (L L2 : NoteLength) (v : String)
    (h : L2 ≠ L) : (n.set L v).get L2 = n.get L2 := by
  cases L <;> cases L2 <;> simp_all [Notes.set, Notes.get]

theorem attachImages_any_fail (ss : List SlideContent) (rs : List (Option String))
    (i : Nat) (hi : i < ss.length) (hr : rs.getD i none = none) :
    (attachImages ss rs).any (fun s => !(optStringTruthy s.imageUrl)) = true := by
  induction ss generalizing rs i with
  | nil => exact absurd hi (by simp)
  | cons s ss ih =>
      cases rs with
      | nil =>
          cases i with
          | zero => simp [attachImages, optStringTruthy]
          | succ j =>
              simp only [attachImages, List.any_cons, Bool.or_eq_true]
              exact Or.inr (ih [] j (by simpa using hi) (by simp))
      | cons r rs =>
          cases i with
          | zero =>
              simp only [List.getD_cons_zero] at hr
              simp [attachImages, optStringTruthy, hr]
          | succ j =>
              simp only [List.getD_cons_succ] at hr
              simp only [attachImages, List.any_cons, Bool.or_eq_true]
              exact Or.inr (ih rs j (by simpa using hi) hr)

/-- C3: for every presentation-generation invocation with aiExplanation
present where phase 1 (slide content) succeeds and phase 2 (image
generation) throws, the material's presentationContent is reset to absent
and presentationError is set to a non-empty message. -/
theorem c3_phase2_throw_resets (m : StudyMaterial) (c : PresentationContent) (msg : String)
    (hid : m.id ≠ "") (hex : optStringTruthy m.aiExplanation = true) :
    (handleGenerateFullPresentation m (.success (some c)) (.throwsWith msg) none).store.presentationContent = none
    ∧ ∃ e, (handleGenerateFullPresentation m (.success (some c)) (.throwsWith msg) none).presentationError = some e
        ∧ e ≠ "" := by
  have h1 : (m.id == "") = false := by simpa using hid
  refine ⟨by simp [handleGenerateFullPresentation, h1, hex], ?_⟩
  exact ⟨jsOr msg "An unknown error occurred.",
    by simp [handleGenerateFullPresentation, h1, hex],
    jsOr_ne_empty msg "An unknown error occurred." (by decide)⟩

/-- C3 witness: concrete run of the C3 theorem. -/
theorem c3_witness :
    (handleGenerateFullPresentation matA (.success (some pcA)) (.throwsWith "boom") none).store.presentationContent = none
    ∧ ∃ e, (handleGenerateFullPresentation matA (.success (some pcA)) (.throwsWith "boom") none).presentationError = some e
        ∧ e ≠ "" :=
  c3_phase2_throw_resets matA pcA "boom" (by decide) (by decide)

/-- C4: for every invocation of presentation, video, or diagram generation
on a material whose aiExplanation is absent or empty, no AI Gateway
function is invoked, a feature-scoped precondition error message is set,
and the corresponding generated field is left unchanged (the whole store
record is unchanged). -/
theorem c4_precondition_guard (m : StudyMaterial)
    (h : m.aiExplanation = none ∨ m.aiExplanation = some "")
    (p1 : GatewayResult (Option PresentationContent)) (p2 : ImagePhaseOutcome)
    (gd : GatewayResult String) (gv : GatewayResult (Option (List VideoScene)))
    (st : Option String) :
    (handleGenerateFullPresentation m p1 p2 st).events = []
    ∧ (handleGenerateFullPresentation m p1 p2 st).presentationError
        = some "An explanation must be generated first to create a presentation."
    ∧ (handleGenerateFullPresentation m p1 p2 st).store = m
    ∧ (handleGenerateBlockDiagram m gd st).gatewayCalled = false
    ∧ (handleGenerateBlockDiagram m gd st).errorSlot
        = some "Please generate an explanation first."
    ∧ (handleGenerateBlockDiagram m gd st).store = m
    ∧ (handleGenerateVideo m gv st).gatewayCalled = false
    ∧ (handleGenerateVideo m gv st).errorSlot
        = some "Please generate an explanation first."
    ∧ (handleGenerateVideo m gv st).store = m := by
  have htr : optStringTruthy m.aiExplanation = false := by
    rcases h with h | h <;> simp [optStringTruthy, h]
  simp [handleGenerateFullPresentation, handleGenerateBlockDiagram,
    handleGenerateVideo, htr]

/-- C4 witness: concrete run of the C4 theorem on a material whose
explanation is absent. -/
theorem c4_witness :
    (handleGenerateFullPresentation matNoExpl (.success none) .nullResult none).events = []
    ∧ (handleGenerateFullPresentation matNoExpl (.success none) .nullResult none).presentationError
        = some "An explanation must be generated first to create a presentation."
    ∧ (handleGenerateFullPresentation matNoExpl (.success none) .nullResult none).store = matNoExpl
    ∧ (handleGenerateBlockDiagram matNoExpl (.success "g") none).gatewayCalled = false
    ∧ (handleGenerateBlockDiagram matNoExpl (.success "g") none).errorSlot
        = some "Please generate an explanation first."
    ∧ (handleGenerateBlockDiagram matNoExpl (.success "g") none).store = matNoExpl
    ∧ (handleGenerateVideo matNoExpl (.success none) none).gatewayCalled = false
    ∧ (handleGenerateVideo matNoExpl (.success none) none).errorSlot
        = some "Please generate an explanation first."
    ∧ (handleGenerateVideo matNoExpl (.success none) none).store = matNoExpl :=
  c4_precondition_guard matNoExpl (Or.inl (by decide)) (.success none) .nullResult
    (.success "g") (.success none) none

/-- C5: a successful notes generation at length L writes only the notes
field, and within notes only key L (other lengths and all other fields
unchanged); a successful explanation regeneration replaces only
aiExplanation (notes, chatHistory, and every other field unmodified). -/
theorem c5_generation_frame (m : StudyMaterial) (L : NoteLength)
    (resN resE : String) (e0 : Option String) (hid : m.id ≠ "") :
    ((handleGenerate m .notes L (.success resN) none e0).store
        = { m with notes := m.notes.set L resN })
    ∧ ((handleGenerate m .notes L (.success resN) none e0).store.notes.get L = some resN)
    ∧ (∀ L2, L2 ≠ L →
        (handleGenerate m .notes L (.success resN) none e0).store.notes.get L2 = m.notes.get L2)
    ∧ ((handleGenerate m .notes L (.success resN) none e0).store.aiExplanation = m.aiExplanation)
    ∧ ((handleGenerate m .notes L (.success resN) none e0).store.chatHistory = m.chatHistory)
    ∧ ((handleGenerate m .explanation L (.success resE) none e0).store
        = { m with aiExplanation := some resE })
    ∧ ((handleGenerate m .explanation L (.success resE) none e0).store.notes = m.notes)
    ∧ ((handleGenerate m .explanation L (.success resE) none e0).store.chatHistory = m.chatHistory) := by
  have h1 : (m.id == "") = false := by simpa using hid
  refine ⟨by simp [handleGenerate, h1], ?_, ?_, ?_, ?_, ?_, ?_, ?_⟩
  · simp [handleGenerate, h1, Notes.get_set_self]
  · intro L2 hL2
    simp [handleGenerate, h1, Notes.get_set_other m.notes L L2 resN hL2]
  · simp [handleGenerate, h1]
  · simp [handleGenerate, h1]
  · simp [handleGenerate, h1]
  · simp [handleGenerate, h1]
  · simp [handleGenerate, h1]

/-- C5 witness: generating detailed notes on a material that already has
short notes leaves the short notes and the explanation byte-identical;
regenerating the explanation leaves the notes untouched. -/
theorem c5_witness :
    (handleGenerate matA .notes .detailed (.success "long notes") none none).store
      = { matA with notes := matA.notes.set .detailed "long notes" }
    ∧ (handleGenerate matA .notes .detailed (.success "long notes") none none).store.notes.get .short
      = matA.notes.get .short
    ∧ (handleGenerate matA .explanation .detailed (.success "new expl") none none).store.notes
      = matA.notes :=
  ⟨(c5_generation_frame matA .detailed "long notes" "new expl" none (by decide)).1,
   (c5_generation_frame matA .detailed "long notes" "new expl" none (by decide)).2.2.1 .short (by decide),
   (c5_generation_frame matA .detailed "long notes" "new expl" none (by decide)).2.2.2.2.2.2.1⟩

/-- C6: after every completed diagram-generation invocation (gateway
returns a value, returns an empty/falsy value, or throws), the material's
blockDiagramMermaid field is either the gateway's diagram source text or
exactly the sentinel string "error" — never the empty string. -/
theorem c6_diagram_never_empty (m : StudyMaterial) (g : GatewayResult String)
    (hex : optStringTruthy m.aiExplanation = true) :
    ∃ d, (handleGenerateBlockDiagram m g none).store.blockDiagramMermaid = some d
      ∧ d ≠ ""
      ∧ ((∃ t, g = .success t ∧ t ≠ "" ∧ d = t) ∨ d = "error") := by
  cases g with
  | success t =>
      by_cases ht : t = ""
      · exact ⟨"error", by simp [handleGenerateBlockDiagram, hex, jsOr, ht],
          by decide, Or.inr rfl⟩
      · refine ⟨t, ?_, ht, Or.inl ⟨t, rfl, ht, rfl⟩⟩
        simp [handleGenerateBlockDiagram, hex, jsOr, ht]
  | failure msg =>
      exact ⟨"error", by simp [handleGenerateBlockDiagram, hex],
        by decide, Or.inr rfl⟩

/-- C6 witness: a concrete successful diagram generation yields the
gateway's non-empty source text. -/
theorem c6_witness :
    ∃ d, (handleGenerateBlockDiagram matA (.success "graph TD; A-->B") none).store.blockDiagramMermaid = some d
      ∧ d ≠ ""
      ∧ ((∃ t, (GatewayResult.success "graph TD; A-->B" : GatewayResult String) = .success t ∧ t ≠ "" ∧ d = t)
          ∨ d = "error") :=
  c6_diagram_never_empty matA (.success "graph TD; A-->B") (by decide)

/-- C10: if video generation throws, videoScenes is not written (and the
whole record is unchanged) and only the feature-scoped video error is set
to a non-empty message; on gateway success, videoScenes is always written
to a defined array (the returned scenes, or empty when the gateway
resolves with a falsy value). -/
theorem c10_video_write_policy (m : StudyMaterial)
    (scenes : Option (List VideoScene)) (msg : String)
    (hex : optStringTruthy m.aiExplanation = true) :
    ((handleGenerateVideo m (.failure msg) none).store = m
      ∧ (handleGenerateVideo m (.failure msg) none).store.videoScenes = m.videoScenes
      ∧ ∃ e, (handleGenerateVideo m (.failure msg) none).errorSlot = some e ∧ e ≠ "")
    ∧ (handleGenerateVideo m (.success scenes) none).store.videoScenes
        = some (scenes.getD []) := by
  refine ⟨⟨by simp [handleGenerateVideo, hex], by simp [handleGenerateVideo, hex], ?_⟩, ?_⟩
  · exact ⟨jsOr msg "An unknown error occurred.",
      by simp [handleGenerateVideo, hex],
      jsOr_ne_empty msg "An unknown error occurred." (by decide)⟩
  · simp [handleGenerateVideo, hex]

/-- C10 witness: concrete run of the C10 theorem where the gateway throws
with an empty message and where it resolves with a falsy value. -/
theorem c10_witness :
    ((handleGenerateVideo matA (.failure "") none).store = matA
      ∧ (handleGenerateVideo matA (.failure "") none).store.videoScenes = matA.videoScenes
      ∧ ∃ e, (handleGenerateVideo matA (.failure "") none).errorSlot = some e ∧ e ≠ "")
    ∧ (handleGenerateVideo matA (.success none) none).store.videoScenes
        = some (Option.getD none []) :=
  c10_video_write_policy matA none "" (by decide)

/-- C9: sending a chat message whose trimmed text is empty, or sending
when no material is loaded, is a complete no-op: no gateway call, no
store write, chat history (the store) unchanged, and the awaiting flag
and chat error state untouched. -/
theorem c9_empty_send_noop (textOverride : Option String) (chatInput : String)
    (material : Option StudyMaterial) (interleaved : List ChatMessage)
    (outcome : ChatOutcome) (st : Option String) (now : Nat) (ts : String)
    (e0 : Option String)
    (h : jsTrim (textOverride.getD chatInput) = "" ∨ material = none
         ∨ ∃ m, material = some m ∧ m.id = "") :
    (handleSendMessage textOverride chatInput material interleaved outcome st now ts e0).store = material
    ∧ (handleSendMessage textOverride chatInput material interleaved outcome st now ts e0).gatewayCalled = false
    ∧ (handleSendMessage textOverride chatInput material interleaved outcome st now ts e0).storeWrites = 0
    ∧ (handleSendMessage textOverride chatInput material interleaved outcome st now ts e0).awaitingTrace = []
    ∧ (handleSendMessage textOverride chatInput material interleaved outcome st now ts e0).errorChat = e0
    ∧ (handleSendMessage textOverride chatInput material interleaved outcome st now ts e0).chatInput = chatInput := by
  cases material with
  | none => simp [handleSendMessage]
  | some m =>
      rcases h with h | h | ⟨m2, hm2, hid⟩
      · simp [handleSendMessage, h]
      · exact absurd h (by simp)
      · have : m2 = m := by injection hm2.symm
        subst this
        simp [handleSendMessage, hid]

/-- C9 witness: concrete no-op runs — whitespace-only input with a loaded
material, and a non-empty input with no material loaded. -/
theorem c9_witness :
    ((handleSendMessage none "" (some matA) [] (.success "x" none) none 7 "t" (some "old")).store = some matA
      ∧ (handleSendMessage none "" (some matA) [] (.success "x" none) none 7 "t" (some "old")).gatewayCalled = false
      ∧ (handleSendMessage none "" (some matA) [] (.success "x" none) none 7 "t" (some "old")).storeWrites = 0
      ∧ (handleSendMessage none "" (some matA) [] (.success "x" none) none 7 "t" (some "old")).awaitingTrace = []
      ∧ (handleSendMessage none "" (some matA) [] (.success "x" none) none 7 "t" (some "old")).errorChat = some "old"
      ∧ (handleSendMessage none "" (some matA) [] (.success "x" none) none 7 "t" (some "old")).chatInput = "")
    ∧ ((handleSendMessage none "hello" none [] (.success "x" none) none 7 "t" none).store = none
      ∧ (handleSendMessage none "hello" none [] (.success "x" none) none 7 "t" none).gatewayCalled = false
      ∧ (handleSendMessage none "hello" none [] (.success "x" none) none 7 "t" none).storeWrites = 0
      ∧ (handleSendMessage none "hello" none [] (.success "x" none) none 7 "t" none).awaitingTrace = []
      ∧ (handleSendMessage none "hello" none [] (.success "x" none) none 7 "t" none).errorChat = none
      ∧ (handleSendMessage none "hello" none [] (.success "x" none) none 7 "t" none).chatInput = "hello") :=
  ⟨c9_empty_send_noop none "" (some matA) [] (.success "x" none) none 7 "t" (some "old")
      (Or.inl (by decide)),
   c9_empty_send_noop none "hello" none [] (.success "x" none) none 7 "t" none
      (Or.inr (Or.inl rfl))⟩

/-- C8: in every presentation-generation invocation, phase 2
(generatePresentationImages) does not start before phase 1's result has
been written to the store: the event trace never shows an imagesCall
before a contentWrite, and the store at the moment phase 2 begins always
holds phase 1's content. -/
theorem c8_phase1_before_phase2 (m : StudyMaterial)
    (p1 : GatewayResult (Option PresentationContent)) (p2 : ImagePhaseOutcome)
    (st : Option String) :
    eventsOrdered false (handleGenerateFullPresentation m p1 p2 st).events = true
    ∧ (∀ s, (handleGenerateFullPresentation m p1 p2 st).storeAtImagesCall = some s →
        s.presentationContent ≠ none)
    ∧ (∀ c s, p1 = .success (some c) →
        (handleGenerateFullPresentation m p1 p2 st).storeAtImagesCall = some s →
        s.presentationContent = some c) := by
  by_cases hg : (m.id == "" || !(optStringTruthy m.aiExplanation)) = true
  · refine ⟨by simp [handleGenerateFullPresentation, hg, eventsOrdered], ?_, ?_⟩
    · intro s hs
      simp [handleGenerateFullPresentation, hg] at hs
    · intro c s hc hs
      simp [handleGenerateFullPresentation, hg] at hs
  · cases p1 with
    | failure msg =>
        cases st <;>
          refine ⟨by simp [handleGenerateFullPresentation, hg, eventsOrdered], ?_, ?_⟩ <;>
          · intros
            simp_all [handleGenerateFullPresentation, hg]
    | success oc =>
        cases oc with
        | none =>
            cases st <;>
              refine ⟨by simp [handleGenerateFullPresentation, hg, eventsOrdered], ?_, ?_⟩ <;>
              · intros
                simp_all [handleGenerateFullPresentation, hg]
        | some content =>
            cases st with
            | some msg =>
                refine ⟨by simp [handleGenerateFullPresentation, hg, eventsOrdered], ?_, ?_⟩ <;>
                · intros
                  simp_all [handleGenerateFullPresentation, hg]
            | none =>
                cases p2 with
                | returns cwi =>
                    refine ⟨by simp [handleGenerateFullPresentation, hg, eventsOrdered], ?_, ?_⟩
                    · intro s hs
                      simp only [handleGenerateFullPresentation, hg, Bool.false_eq_true,
                        if_false] at hs
                      injection hs with hs
                      subst hs
                      simp
                    · intro c s hc hs
                      injection hc with hc
                      injection hc with hc
                      subst hc
                      simp only [handleGenerateFullPresentation, hg, Bool.false_eq_true,
                        if_false] at hs
                      injection hs with hs
                      subst hs
                      simp
                | nullResult =>
                    refine ⟨by simp [handleGenerateFullPresentation, hg, eventsOrdered], ?_, ?_⟩
                    · intro s hs
                      simp only [handleGenerateFullPresentation, hg, Bool.false_eq_true,
                        if_false] at hs
                      injection hs with hs
                      subst hs
                      simp
                    · intro c s hc hs
                      injection hc with hc
                      injection hc with hc
                      subst hc
                      simp only [handleGenerateFullPresentation, hg, Bool.false_eq_true,
                        if_false] at hs
                      injection hs with hs
                      subst hs
                      simp
                | throwsWith msg =>
                    refine ⟨by simp [handleGenerateFullPresentation, hg, eventsOrdered], ?_, ?_⟩
                    · intro s hs
                      simp only [handleGenerateFullPresentation, hg, Bool.false_eq_true,
                        if_false] at hs
                      injection hs with hs
                      subst hs
                      simp
                    · intro c s hc hs
                      injection hc with hc
                      injection hc with hc
                      subst hc
                      simp only [handleGenerateFullPresentation, hg, Bool.false_eq_true,
                        if_false] at hs
                      injection hs with hs
                      subst hs
                      simp

/-- C8 witness: concrete presentation run — the event trace is ordered and
the store at the start of phase 2 holds phase 1's content. -/
theorem c8_witness :
    eventsOrdered false (handleGenerateFullPresentation matA (.success (some pcA)) (.returns pcA) none).events = true
    ∧ ({ matA with presentationContent := some pcA } : StudyMaterial).presentationContent = some pcA :=
  ⟨(c8_phase1_before_phase2 matA (.success (some pcA)) (.returns pcA) none).1,
   (c8_phase1_before_phase2 matA (.success (some pcA)) (.returns pcA) none).2.2 pcA
     { matA with presentationContent := some pcA } rfl (by decide)⟩

/-- C1 counterexample: with history [msgA, msgB], message "hi" sent, and
msgE appended to the store by another writer before the gateway resolves
successfully, the final write's base is the history captured before the
asynchronous call began ([msgA, msgB]): the store at completion time holds
[msgA, msgB, userM, msgE], yet the final history is [msgA, msgB, userM,
aiReply] — not the latest-store-read base plus the reply, contradicting
"in both cases the history used as the base of the final write is the
latest history read from the store at completion time". -/
theorem c1_counterexample :
    chatRunC1.finalHistory
      = some [msgA, msgB, mkUserMessage 10 "hi" "t4", mkAiMessage 10 "reply" "t4" none]
    ∧ chatRunC1.historyAtCompletion
      = some [msgA, msgB, mkUserMessage 10 "hi" "t4", msgE]
    ∧ [msgA, msgB, mkUserMessage 10 "hi" "t4", mkAiMessage 10 "reply" "t4" none]
      ≠ [msgA, msgB, mkUserMessage 10 "hi" "t4", msgE] ++ [mkAiMessage 10 "reply" "t4" none] := by
  decide

/-- C1 (amended): sending message M while the captured history is H
appends exactly [userM, aiReply] to H on gateway success (so with no
concurrent appends the history becomes [A,B,userM,aiReply], userM once)
and [errorReply] to the completion-time store history on failure (so the
failure path's base IS the latest store read, and the history becomes
[A,B,userM,errorReply] when nothing was appended concurrently); the
success path's base is the history captured before the asynchronous call
began, not a fresh store read. -/
theorem c1_chat_append (m : StudyMaterial) (text : String)
    (interleaved : List ChatMessage) (aiText : String)
    (gs : Option (List GroundingSource)) (fmsg : String)
    (now : Nat) (ts : String) (e0 : Option String)
    (htext : jsTrim text ≠ "") (hid : m.id ≠ "") :
    ((handleSendMessage none text (some m) interleaved (.success aiText gs) none now ts e0).finalHistory
      = some ((m.chatHistory.getD [])
          ++ [mkUserMessage now (jsTrim text) ts, mkAiMessage now aiText ts gs]))
    ∧ ((handleSendMessage none text (some m) interleaved (.failure fmsg) none now ts e0).historyAtCompletion
      = some (((m.chatHistory.getD []) ++ [mkUserMessage now (jsTrim text) ts]) ++ interleaved))
    ∧ ((handleSendMessage none text (some m) interleaved (.failure fmsg) none now ts e0).finalHistory
      = some ((((m.chatHistory.getD []) ++ [mkUserMessage now (jsTrim text) ts]) ++ interleaved)
          ++ [mkErrorMessage now ts])) := by
  have h1 : (jsTrim text == "") = false := by simpa using htext
  have h2 : (m.id == "") = false := by simpa using hid
  refine ⟨?_, ?_, ?_⟩ <;>
    simp [handleSendMessage, ChatRun.finalHistory, h1, h2]

/-- C1 witness: concrete run of the amended C1 theorem with no concurrent
appends — history [msgA, msgB] becomes [msgA, msgB, userM, aiReply] on
success and [msgA, msgB, userM, errorReply] on failure. -/
theorem c1_witness :
    ((handleSendMessage none "hi" (some matA) [] (.success "reply" none) none 10 "t4" none).finalHistory
      = some ((matA.chatHistory.getD [])
          ++ [mkUserMessage 10 (jsTrim "hi") "t4", mkAiMessage 10 "reply" "t4" none]))
    ∧ ((handleSendMessage none "hi" (some matA) [] (.failure "x") none 10 "t4" none).historyAtCompletion
      = some (((matA.chatHistory.getD []) ++ [mkUserMessage 10 (jsTrim "hi") "t4"]) ++ []))
    ∧ ((handleSendMessage none "hi" (some matA) [] (.failure "x") none 10 "t4" none).finalHistory
      = some ((((matA.chatHistory.getD []) ++ [mkUserMessage 10 (jsTrim "hi") "t4"]) ++ [])
          ++ [mkErrorMessage 10 "t4"])) :=
  c1_chat_append matA "hi" [] "reply" none "x" 10 "t4" none (by decide) (by decide)

/-- C2 counterexample: a presentation run in which the image phase
completes but every slide's image generation fails (per the spec's
gateway contract the content structure is still returned, each image URL
absent). The handler keeps the content-without-images in
presentationContent — it does NOT end in the absent state — and surfaces
the non-fatal warning, contradicting the claim's all-slides-fail case. -/
theorem c2_counterexample :
    runC2.store.presentationContent = some (generatePresentationImages pcA [none, none])
    ∧ runC2.store.presentationContent ≠ none
    ∧ (generatePresentationImages pcA [none, none]).slides.all (fun s => s.imageUrl == none) = true
    ∧ (generatePresentationImages pcA [none, none]).slides.length = 2
    ∧ runC2.presentationError = some "Some slide visuals could not be generated." := by
  decide

/-- C2 (amended): whenever the image phase completes (returns the content
structure) and at least one slide's image failed — including the case
where ALL slides failed — presentationContent retains the content with
the failed slides' image URL fields absent and the non-fatal warning
"Some slide visuals could not be generated." is surfaced;
presentationContent ends absent only when the image phase throws or
returns no content, not when it completes with per-slide failures. -/
theorem c2_partial_image_failure (m : StudyMaterial) (c : PresentationContent)
    (results : List (Option String)) (i : Nat)
    (hid : m.id ≠ "") (hex : optStringTruthy m.aiExplanation = true)
    (hi : i < c.slides.length) (hfail : results.getD i none = none) :
    (handleGenerateFullPresentation m (.success (some c))
        (.returns (generatePresentationImages c results)) none).store.presentationContent
      = some (generatePresentationImages c results)
    ∧ (handleGenerateFullPresentation m (.success (some c))
        (.returns (generatePresentationImages c results)) none).presentationError
      = some "Some slide visuals could not be generated." := by
  have h1 : (m.id == "") = false := by simpa using hid
  have hwarn : (generatePresentationImages c results).slides.any
      (fun s => !(optStringTruthy s.imageUrl)) = true :=
    attachImages_any_fail c.slides results i hi hfail
  constructor
  · simp [handleGenerateFullPresentation, h1, hex]
  · simp [handleGenerateFullPresentation, h1, hex, generatePresentationImages] at hwarn ⊢
    simp [hwarn]

/-- C2 witness: concrete run of the amended C2 theorem — one of two slide
images fails; the content is retained with that slide's image URL absent
and the warning is surfaced. -/
theorem c2_witness :
    (handleGenerateFullPresentation matA (.success (some pcA))
        (.returns (generatePresentationImages pcA [some "url1", none])) none).store.presentationContent
      = some (generatePresentationImages pcA [some "url1", none])
    ∧ (handleGenerateFullPresentation matA (.success (some pcA))
        (.returns (generatePresentationImages pcA [some "url1", none])) none).presentationError
      = some "Some slide visuals could not be generated." :=
  c2_partial_image_failure matA pcA [some "url1", none] 1 (by decide) (by decide)
    (by decide) (by decide)

/-- C7 counterexample: in a chat invocation where the Content Store update
throws, the awaiting-response flag is never set — the optimistic
user-message write precedes the flag assignment and its exception escapes
the handler — contradicting "the feature's in-progress flag is set at the
start ... regardless of whether ... the Content Store update itself
throws". -/
theorem c7_counterexample :
    (handleSendMessage none "hi" (some matA) [] (.success "ok" none) (some "store down") 5 "t0" none).awaitingTrace = []
    ∧ (handleSendMessage none "hi" (some matA) [] (.success "ok" none) (some "store down") 5 "t0" none).awaitingTrace.head? ≠ some true
    ∧ (handleSendMessage none "hi" (some matA) [] (.success "ok" none) (some "store down") 5 "t0" none).uncaught = true := by
  decide

/-- C7 (amended): for the explanation/summary/notes, presentation, diagram
and video features, every invocation that passes its precondition guard
sets the in-progress flag at the start and clears it on completion
(assignment trace [true, false]) whether the gateway succeeds, the
gateway throws, or the Content Store update throws; the chat feature does
the same when the store does not throw, but when the optimistic store
write throws the invocation aborts with the awaiting flag never set (it
remains false throughout). -/
theorem c7_loading_flag_lifecycle :
    (∀ (m : StudyMaterial) (ty : GenType) (L : NoteLength) (gen : GatewayResult String)
        (st : Option String) (e0 : Option String), m.id ≠ "" →
      (handleGenerate m ty L gen st e0).loadingTrace = [true, false])
    ∧ (∀ (m : StudyMaterial) (p1 : GatewayResult (Option PresentationContent))
        (p2 : ImagePhaseOutcome) (st : Option String),
        m.id ≠ "" → optStringTruthy m.aiExplanation = true →
      (handleGenerateFullPresentation m p1 p2 st).loadingTrace = [true, false])
    ∧ (∀ (m : StudyMaterial) (g : GatewayResult String) (st : Option String),
        optStringTruthy m.aiExplanation = true →
      (handleGenerateBlockDiagram m g st).loadingTrace = [true, false])
    ∧ (∀ (m : StudyMaterial) (g : GatewayResult (Option (List VideoScene))) (st : Option String),
        optStringTruthy m.aiExplanation = true →
      (handleGenerateVideo m g st).loadingTrace = [true, false])
    ∧ (∀ (text : String) (m : StudyMaterial) (il : List ChatMessage) (oc : ChatOutcome)
        (now : Nat) (ts : String) (e0 : Option String),
        jsTrim text ≠ "" → m.id ≠ "" →
      (handleSendMessage none text (some m) il oc none now ts e0).awaitingTrace = [true, false])
    ∧ (∀ (text : String) (m : StudyMaterial) (il : List ChatMessage) (oc : ChatOutcome)
        (smsg : String) (now : Nat) (ts : String) (e0 : Option String),
        jsTrim text ≠ "" → m.id ≠ "" →
      (handleSendMessage none text (some m) il oc (some smsg) now ts e0).awaitingTrace = []
      ∧ (handleSendMessage none text (some m) il oc (some smsg) now ts e0).uncaught = true) := by
  refine ⟨?_, ?_, ?_, ?_, ?_, ?_⟩
  · intro m ty L gen st e0 hid
    have h1 : (m.id == "") = false := by simpa using hid
    cases gen <;> cases st <;> simp [handleGenerate, h1]
  · intro m p1 p2 st hid hex
    have h1 : (m.id == "") = false := by simpa using hid
    rcases p1 with v | msg
    · rcases v with _ | c <;> cases st <;> cases p2 <;>
        simp [handleGenerateFullPresentation, h1, hex]
    · cases st <;> simp [handleGenerateFullPresentation, h1, hex]
  · intro m g st hex
    cases g <;> cases st <;> simp [handleGenerateBlockDiagram, hex]
  · intro m g st hex
    cases g <;> cases st <;> simp [handleGenerateVideo, hex]
  · intro text m il oc now ts e0 htext hid
    have h1 : (jsTrim text == "") = false := by simpa using htext
    have h2 : (m.id == "") = false := by simpa using hid
    cases oc <;> simp [handleSendMessage, h1, h2]
  · intro text m il oc smsg now ts e0 htext hid
    have h1 : (jsTrim text == "") = false := by simpa using htext
    have h2 : (m.id == "") = false := by simpa using hid
    cases oc <;> simp [handleSendMessage, h1, h2]

/-- C7 witness: concrete runs of the amended C7 theorem — each feature's
flag trace is [true, false] on a guarded invocation with a working store,
and the chat flag stays unset when the optimistic store write throws. -/
theorem c7_witness :
    (handleGenerate matA .notes .short (.success "x") none none).loadingTrace = [true, false]
    ∧ (handleGenerateFullPresentation matA (.success (some pcA)) (.returns pcA) none).loadingTrace = [true, false]
    ∧ (handleGenerateBlockDiagram matA (.failure "e") (some "down")).loadingTrace = [true, false]
    ∧ (handleGenerateVideo matA (.success none) none).loadingTrace = [true, false]
    ∧ (handleSendMessage none "hi" (some matA) [] (.success "ok" none) none 5 "t" none).awaitingTrace = [true, false]
    ∧ (handleSendMessage none "hi" (some matA) [] (.success "ok" none) (some "down") 5 "t" none).awaitingTrace = [] :=
  ⟨c7_loading_flag_lifecycle.1 matA .notes .short (.success "x") none none (by decide),
   c7_loading_flag_lifecycle.2.1 matA (.success (some pcA)) (.returns pcA) none (by decide) (by decide),
   c7_loading_flag_lifecycle.2.2.1 matA (.failure "e") (some "down") (by decide),
   c7_loading_flag_lifecycle.2.2.2.1 matA (.success none) none (by decide),
   c7_loading_flag_lifecycle.2.2.2.2.1 "hi" matA [] (.success "ok" none) 5 "t" none (by decide) (by decide),
   (c7_loading_flag_lifecycle.2.2.2.2.2 "hi" matA [] (.success "ok" none) "down" 5 "t" none (by decide) (by decide)).1⟩
